import Mathlib

/-!
Shallow embedding of the change-detection engine of `src/tools/changeDetector.ts`
(the `changeDetectorJS` snippet: `window.changeDetector` with its `baseline`,
`thresholds`, and the operations `detectChanges`, `updateThresholds`,
`resetBaseline`).  JS numbers are modelled as `ℚ` where fractions can arise
(viewport height, thresholds, percentages) and as `ℤ` for DOM counts; strings
are modelled as Lean `String`; the impure `Date.now()` timestamp is passed in
as an explicit parameter.  The diagnostic `metrics` echo in the result object
(which merely repeats the inputs and intermediate deltas) is carried as
explicit fields where claims need it.
-/

namespace ChangeDetector

/-- One page-metrics snapshot, the object built by `getMetrics` (lines 61-78
of changeDetector.ts).  Count fields are integers, `viewportHeight` is a JS
float (modelled as `ℚ`), `url` a string. -/
structure MetricsVector where
  elements : Int
  url : String
  dialogs : Int
  overlays : Int
  forms : Int
  inputs : Int
  buttons : Int
  links : Int
  viewportHeight : ℚ
  visibleElements : Int
  maxZIndex : Int
  fixedElements : Int
  absoluteElements : Int
deriving Repr, DecidableEq

/-- The `thresholds.major` record (line 48). -/
structure MajorThresholds where
  elementDelta : ℚ
  dialogDelta : ℚ
  overlayDelta : ℚ
  formDelta : ℚ
  zIndexDelta : ℚ
  viewportDelta : ℚ
deriving Repr, DecidableEq

/-- The `thresholds.minor` record (line 49). -/
structure MinorThresholds where
  elementDelta : ℚ
  viewportDelta : ℚ
deriving Repr, DecidableEq

/-- The full `thresholds` record (lines 47-50). -/
structure Thresholds where
  major : MajorThresholds
  minor : MinorThresholds
deriving Repr, DecidableEq

/-- Default thresholds installed at construction (lines 47-50). -/
def defaultThresholds : Thresholds :=
  { major := { elementDelta := 100, dialogDelta := 1, overlayDelta := 1,
               formDelta := 1, zIndexDelta := 500, viewportDelta := 30 },
    minor := { elementDelta := 20, viewportDelta := 5 } }

/-- The mutable state of `window.changeDetector`: `baseline` (initially null,
line 46) and `thresholds`. -/
structure DetectorState where
  baseline : Option MetricsVector
  thresholds : Thresholds
deriving Repr, DecidableEq

/-- A freshly constructed engine with a given threshold configuration. -/
def mkEngine (th : Thresholds) : DetectorState :=
  { baseline := none, thresholds := th }

/-- The engine right after evaluating `changeDetectorJS`: null baseline,
default thresholds. -/
def initialState : DetectorState := mkEngine defaultThresholds

/-- The `delta` object computed in `detectChanges` (lines 104-118):
absolute differences for most counts, signed differences for dialogs,
overlays and z-index, and a boolean URL-change flag. -/
structure Delta where
  elements : Int
  dialogs : Int
  overlays : Int
  forms : Int
  inputs : Int
  buttons : Int
  links : Int
  viewportHeight : ℚ
  visibleElements : Int
  zIndex : Int
  urlChanged : Bool
  fixedElements : Int
  absoluteElements : Int
deriving Repr, DecidableEq

/-- JS `Math.abs` on an integer count. -/
def intAbs (n : Int) : Int := if n < 0 then -n else n

/-- JS `Math.abs` on a (possibly fractional) number. -/
def ratAbs (q : ℚ) : ℚ := if q < 0 then -q else q

def computeDelta (baseline current : MetricsVector) : Delta :=
  { elements := intAbs (current.elements - baseline.elements)
    dialogs := current.dialogs - baseline.dialogs
    overlays := current.overlays - baseline.overlays
    forms := intAbs (current.forms - baseline.forms)
    inputs := intAbs (current.inputs - baseline.inputs)
    buttons := intAbs (current.buttons - baseline.buttons)
    links := intAbs (current.links - baseline.links)
    viewportHeight := ratAbs (current.viewportHeight - baseline.viewportHeight)
    visibleElements := intAbs (current.visibleElements - baseline.visibleElements)
    zIndex := current.maxZIndex - baseline.maxZIndex
    urlChanged := current.url != baseline.url
    fixedElements := intAbs (current.fixedElements - baseline.fixedElements)
    absoluteElements := intAbs (current.absoluteElements - baseline.absoluteElements) }

/-- JS `x || 1` applied to a (well-formed, non-NaN) number: 0 is falsy and
is replaced by 1. -/
def orOne (q : ℚ) : ℚ := if q = 0 then 1 else q

/-- The `percentChange` object (lines 134-138). -/
structure PercentChange where
  elements : ℚ
  viewport : ℚ
  visible : ℚ
deriving Repr, DecidableEq

def computePercentChange (baseline : MetricsVector) (d : Delta) : PercentChange :=
  { elements := ((d.elements : ℚ) / orOne (baseline.elements : ℚ)) * 100
    viewport := (d.viewportHeight / orOne baseline.viewportHeight) * 100
    visible := ((d.visibleElements : ℚ) / orOne (baseline.visibleElements : ℚ)) * 100 }

/-- Does `pat` start the list `l`? -/
def startsWithChars : List Char → List Char → Bool
  | [], _ => true
  | _ :: _, [] => false
  | p :: ps, c :: cs => p == c && startsWithChars ps cs

/-- Does `pat` occur as a contiguous run inside `l`? -/
def containsChars (pat : List Char) : List Char → Bool
  | [] => startsWithChars pat []
  | c :: cs => startsWithChars pat (c :: cs) || containsChars pat cs

/-- JS `s.includes(pat)`: substring containment. -/
def strIncludes (s pat : String) : Bool := containsChars pat.data s.data

/-- JS `Number.prototype.toFixed(1)` on a non-negative value: the nearest
multiple of 1/10, ties toward the larger candidate, printed with one decimal
digit. -/
def jsToFixed1Nonneg (q : ℚ) : String :=
  let scaled : ℚ := q * 10 + 1 / 2
  let n : Int := Int.fdiv scaled.num (scaled.den : Int)
  toString (n / 10) ++ "." ++ toString (n % 10)

/-- JS `Number.prototype.toFixed(1)` (ECMA-262: negatives are formatted by
sign-prefixing the formatted magnitude). -/
def jsToFixed1 (q : ℚ) : String :=
  if q < 0 then "-" ++ jsToFixed1Nonneg (-q) else jsToFixed1Nonneg q

/-- One character of the filename slug: JS `replace(/[^a-z0-9]/g, '_')` after
lower-casing keeps `a`-`z` and `0`-`9` and replaces everything else by `_`. -/
def slugChar (c : Char) : Char :=
  if ('a' ≤ c ∧ c ≤ 'z') ∨ ('0' ≤ c ∧ c ≤ '9') then c else '_'

/-- The slug of a major reason (line 162): lower-case, then collapse every
non-alphanumeric character to an underscore (character-wise, so the two JS
passes fuse into one map). -/
def slug (s : String) : String := ⟨s.data.map (fun c => slugChar c.toLower)⟩

/-- Major reasons in the fixed source order (lines 125-142): URL, dialogs,
overlays, forms, elements, z-index, fixed-position, absolute-position,
viewport percentage. -/
def majorReasonsOf (th : MajorThresholds) (d : Delta) (pc : PercentChange) :
    List String :=
  (if d.urlChanged then ["URL changed"] else []) ++
  (if d.dialogs > 0 then [toString d.dialogs ++ " dialog(s) appeared"] else []) ++
  (if d.overlays > 0 then [toString d.overlays ++ " overlay(s) appeared"] else []) ++
  (if (d.forms : ℚ) ≥ th.formDelta then ["Form count changed by " ++ toString d.forms] else []) ++
  (if (d.elements : ℚ) ≥ th.elementDelta then [toString d.elements ++ " elements changed"] else []) ++
  (if (d.zIndex : ℚ) ≥ th.zIndexDelta then ["Z-index increased by " ++ toString d.zIndex] else []) ++
  (if d.fixedElements > 0 then [toString d.fixedElements ++ " fixed elements changed"] else []) ++
  (if d.absoluteElements > 0 then [toString d.absoluteElements ++ " absolute elements changed"] else []) ++
  (if pc.viewport ≥ th.viewportDelta then ["Viewport height changed " ++ jsToFixed1 pc.viewport ++ "%"] else [])

/-- Minor reasons in the fixed source order (lines 145-148); in the source
this block only runs when the major list is empty, which `minorOf` below
enforces. -/
def minorReasonsOf (th : MinorThresholds) (d : Delta) (pc : PercentChange) :
    List String :=
  (if (d.elements : ℚ) ≥ th.elementDelta then [toString d.elements ++ " elements changed"] else []) ++
  (if pc.visible ≥ th.viewportDelta then [jsToFixed1 pc.visible ++ "% visibility changes"] else []) ++
  (if d.buttons > 0 then [toString d.buttons ++ " button(s) changed"] else []) ++
  (if d.inputs > 0 then [toString d.inputs ++ " input(s) changed"] else [])

/-- The `majorReasons` list computed for baseline `b` and current vector `c`. -/
def majorOf (th : Thresholds) (b c : MetricsVector) : List String :=
  majorReasonsOf th.major (computeDelta b c) (computePercentChange b (computeDelta b c))

/-- The `minorReasons` list: populated only when `majorReasons.length === 0`
(line 144). -/
def minorOf (th : Thresholds) (b c : MetricsVector) : List String :=
  if majorOf th b c = [] then
    minorReasonsOf th.minor (computeDelta b c) (computePercentChange b (computeDelta b c))
  else []

/-- The `level` string (line 151). -/
def levelOf (th : Thresholds) (b c : MetricsVector) : String :=
  if (majorOf th b c).length > 0 then "major"
  else if (minorOf th b c).length > 0 then "minor"
  else "none"

/-- The predicate inside `majorReasons.some(...)` (lines 153-158). -/
def snapshotSignal (r : String) : Bool :=
  strIncludes r "dialog" || strIncludes r "overlay" ||
  strIncludes r "URL changed" || strIncludes r "Form count changed"

/-- The `suggestedFilename` construction (lines 160-166); `now` stands for
`Date.now()`. -/
def filenameOf (th : Thresholds) (b c : MetricsVector) (now : Nat) : String :=
  if levelOf th b c = "major" then
    "major_change_" ++ slug ((majorOf th b c).headD "") ++ "_" ++ toString now ++ ".png"
  else if levelOf th b c = "minor" then
    "minor_change_" ++ toString now ++ ".png"
  else "no_change.png"

/-- The result object of `detectChanges`.  `reason` is the extra field only
present in the baseline-initialization result (line 93); `delta` and
`percentChange` carry the diagnostic `metrics` bundle entries the claims talk
about (`metrics.current` and `metrics.baseline` are just the call inputs). -/
structure DetectionResult where
  changed : Bool
  level : String
  reason : Option String
  reasons : List String
  majorReasons : List String
  minorReasons : List String
  shouldTakeScreenshot : Bool
  shouldTakeSnapshot : Bool
  suggestedFilename : String
  delta : Option Delta
  percentChange : Option PercentChange
deriving Repr, DecidableEq

/-- The neutral result returned on the first observation (lines 90-101). -/
def baselineInitResult : DetectionResult :=
  { changed := false, level := "none", reason := some "Baseline initialized",
    reasons := [], majorReasons := [], minorReasons := [],
    shouldTakeScreenshot := false, shouldTakeSnapshot := false,
    suggestedFilename := "baseline_set.png",
    delta := none, percentChange := none }

/-- The result object built when a baseline exists (lines 104-185). -/
def classifyCore (th : Thresholds) (b c : MetricsVector) (now : Nat) :
    DetectionResult :=
  { changed := levelOf th b c != "none"
    level := levelOf th b c
    reason := none
    reasons := majorOf th b c ++ minorOf th b c
    majorReasons := majorOf th b c
    minorReasons := minorOf th b c
    shouldTakeScreenshot := levelOf th b c != "none"
    shouldTakeSnapshot := (majorOf th b c).any snapshotSignal
    suggestedFilename := filenameOf th b c now
    delta := some (computeDelta b c)
    percentChange := some (computePercentChange b (computeDelta b c)) }

/-- `detectChanges` (lines 83-189), with the already-captured metrics vector
`current` passed in (`getMetrics` is the external metrics source): first call
stores the baseline and returns the neutral result; later calls classify
against the baseline and then unconditionally replace it (line 187). -/
def detectChanges (st : DetectorState) (current : MetricsVector) (now : Nat) :
    DetectionResult × DetectorState :=
  match st.baseline with
  | none => (baselineInitResult, { st with baseline := some current })
  | some b => (classifyCore st.thresholds b current now,
               { st with baseline := some current })

/-- Partial update for the `major` tier (every zod field is optional). -/
structure MajorThresholdsPatch where
  elementDelta : Option ℚ
  dialogDelta : Option ℚ
  overlayDelta : Option ℚ
  formDelta : Option ℚ
  zIndexDelta : Option ℚ
  viewportDelta : Option ℚ
deriving Repr, DecidableEq

/-- Partial update for the `minor` tier. -/
structure MinorThresholdsPatch where
  elementDelta : Option ℚ
  viewportDelta : Option ℚ
deriving Repr, DecidableEq

/-- The argument of `updateThresholds`: both tiers optional
(thresholdsSchema, lines 28-41). -/
structure ThresholdsPatch where
  major : Option MajorThresholdsPatch
  minor : Option MinorThresholdsPatch
deriving Repr, DecidableEq

/-- `Object.assign(this.thresholds.major, newThresholds.major)` (line 194):
fields present in the patch overwrite, absent fields keep the stored value. -/
def mergeMajor (old : MajorThresholds) (p : MajorThresholdsPatch) :
    MajorThresholds :=
  { elementDelta := p.elementDelta.getD old.elementDelta
    dialogDelta := p.dialogDelta.getD old.dialogDelta
    overlayDelta := p.overlayDelta.getD old.overlayDelta
    formDelta := p.formDelta.getD old.formDelta
    zIndexDelta := p.zIndexDelta.getD old.zIndexDelta
    viewportDelta := p.viewportDelta.getD old.viewportDelta }

/-- `Object.assign(this.thresholds.minor, newThresholds.minor)` (line 197). -/
def mergeMinor (old : MinorThresholds) (p : MinorThresholdsPatch) :
    MinorThresholds :=
  { elementDelta := p.elementDelta.getD old.elementDelta
    viewportDelta := p.viewportDelta.getD old.viewportDelta }

/-- The return object of `updateThresholds` (line 200). -/
structure UpdateResult where
  success : Bool
  thresholds : Thresholds
deriving Repr, DecidableEq

/-- `updateThresholds` (lines 191-201): per-tier shallow merge, no
validation, returns the full resulting configuration. -/
def updateThresholds (st : DetectorState) (p : ThresholdsPatch) :
    UpdateResult × DetectorState :=
  let th : Thresholds :=
    { major := match p.major with
               | some m => mergeMajor st.thresholds.major m
               | none => st.thresholds.major
      minor := match p.minor with
               | some m => mergeMinor st.thresholds.minor m
               | none => st.thresholds.minor }
  ({ success := true, thresholds := th }, { st with thresholds := th })

/-- The return object of `resetBaseline` (line 207). -/
structure ResetResult where
  success : Bool
  message : String
  previousBaseline : Option MetricsVector
deriving Repr, DecidableEq

/-- `resetBaseline` (lines 203-208): clears the baseline, returns the old
one. -/
def resetBaseline (st : DetectorState) : ResetResult × DetectorState :=
  ({ success := true, message := "Baseline reset", previousBaseline := st.baseline },
   { st with baseline := none })

/-- One externally triggered operation on the engine. -/
inductive Op where
  | classify (v : MetricsVector) (now : Nat)
  | update (p : ThresholdsPatch)
  | reset
deriving Repr, DecidableEq

/-- State transition of one operation. -/
def applyOp (st : DetectorState) : Op → DetectorState
  | .classify v now => (detectChanges st v now).2
  | .update p => (updateThresholds st p).2
  | .reset => (resetBaseline st).2

/-- Run a sequence of operations from the freshly initialized engine. -/
def run (ops : List Op) : DetectorState := ops.foldl applyOp initialState

/-- Tracking step: remember the vector of the most recent `classify`. -/
def lastStep (acc : Option MetricsVector) : Op → Option MetricsVector
  | .classify v _ => some v
  | .update _ => acc
  | .reset => acc

/-- The vector of the last `classify` in the sequence, if any. -/
def lastClassified (ops : List Op) : Option MetricsVector :=
  ops.foldl lastStep none

/-- Concrete metrics snapshot used to exercise the engine. -/
def sampleVector : MetricsVector :=
  { elements := 100, url := "https://example.com/a", dialogs := 0, overlays := 0,
    forms := 1, inputs := 2, buttons := 3, links := 4, viewportHeight := 800,
    visibleElements := 50, maxZIndex := 10, fixedElements := 0,
    absoluteElements := 0 }

/-- `sampleVector` after one dialog appeared. -/
def sampleDialogVector : MetricsVector := { sampleVector with dialogs := 1 }

theorem detectChanges_snd_baseline (st : DetectorState) (c : MetricsVector)
    (now : Nat) : ((detectChanges st c now).2).baseline = some c := by
  obtain ⟨bl, th⟩ := st
  cases bl <;> rfl

theorem detectChanges_snd_thresholds (st : DetectorState) (c : MetricsVector)
    (now : Nat) : ((detectChanges st c now).2).thresholds = st.thresholds := by
  obtain ⟨bl, th⟩ := st
  cases bl <;> rfl

theorem baseline_trace_aux (ops : List Op) :
    ∀ (st : DetectorState) (acc : Option MetricsVector),
      (st.baseline = none ∨ st.baseline = acc) →
      ((ops.foldl applyOp st).baseline = none ∨
       (ops.foldl applyOp st).baseline = ops.foldl lastStep acc) := by
  induction ops with
  | nil => intro st acc h; simpa using h
  | cons op rest ih =>
    intro st acc h
    simp only [List.foldl_cons]
    apply ih
    cases op with
    | classify v n => exact Or.inr (detectChanges_snd_baseline st v n)
    | update p => exact h
    | reset => exact Or.inl rfl

/-- C2: after every classify call the stored baseline is exactly the vector
just classified, and over any operation sequence from the fresh engine the
baseline is either absent or the vector of the last classify call. -/
theorem baseline_sliding_invariant :
    (∀ (st : DetectorState) (c : MetricsVector) (now : Nat),
        ((detectChanges st c now).2).baseline = some c) ∧
    (∀ ops : List Op,
        (run ops).baseline = none ∨ (run ops).baseline = lastClassified ops) := by
  refine ⟨detectChanges_snd_baseline, fun ops => ?_⟩
  exact baseline_trace_aux ops initialState none (Or.inl rfl)

/-- C3: a classify call with no stored baseline returns the neutral
first-observation result (level none, changed false, empty reason lists, no
capture recommendations, sentinel filename) and stores the input vector as
the new baseline. -/
theorem classify_first_observation (st : DetectorState) (c : MetricsVector)
    (now : Nat) (h : st.baseline = none) :
    (detectChanges st c now).1.level = "none" ∧
    (detectChanges st c now).1.changed = false ∧
    (detectChanges st c now).1.majorReasons = [] ∧
    (detectChanges st c now).1.minorReasons = [] ∧
    (detectChanges st c now).1.shouldTakeScreenshot = false ∧
    (detectChanges st c now).1.shouldTakeSnapshot = false ∧
    (detectChanges st c now).1.suggestedFilename = "baseline_set.png" ∧
    (detectChanges st c now).2 = { st with baseline := some c } := by
  obtain ⟨bl, th⟩ := st
  subst h
  exact ⟨rfl, rfl, rfl, rfl, rfl, rfl, rfl, rfl⟩

/-- Witness for C3 at the fresh engine and a concrete vector. -/
theorem classify_first_observation_witness :
    (detectChanges initialState sampleVector 7).1.level = "none" ∧
    (detectChanges initialState sampleVector 7).1.changed = false ∧
    (detectChanges initialState sampleVector 7).1.majorReasons = [] ∧
    (detectChanges initialState sampleVector 7).1.minorReasons = [] ∧
    (detectChanges initialState sampleVector 7).1.shouldTakeScreenshot = false ∧
    (detectChanges initialState sampleVector 7).1.shouldTakeSnapshot = false ∧
    (detectChanges initialState sampleVector 7).1.suggestedFilename = "baseline_set.png" ∧
    (detectChanges initialState sampleVector 7).2 =
      { initialState with baseline := some sampleVector } :=
  classify_first_observation initialState sampleVector 7 rfl

/-- C6: resetBaseline clears the baseline, returns the previous one, leaves
thresholds alone, and a classify right after reset behaves exactly like a
classify on a freshly constructed engine with the same thresholds. -/
theorem resetBaseline_spec (st : DetectorState) (v : MetricsVector) (now : Nat) :
    (resetBaseline st).1.previousBaseline = st.baseline ∧
    (resetBaseline st).2.baseline = none ∧
    (resetBaseline st).2.thresholds = st.thresholds ∧
    detectChanges (resetBaseline st).2 v now =
      detectChanges (mkEngine st.thresholds) v now :=
  ⟨rfl, rfl, rfl, rfl⟩

/-- C10: the configured major.dialogDelta and major.overlayDelta values never
influence the classification result: two engines identical except for those
two threshold fields classify every vector identically. -/
theorem classify_ignores_dialog_overlay_thresholds
    (bl : Option MetricsVector) (e dd1 dd2 ov1 ov2 f z vp : ℚ)
    (mn : MinorThresholds) (c : MetricsVector) (now : Nat) :
    (detectChanges ⟨bl, ⟨⟨e, dd1, ov1, f, z, vp⟩, mn⟩⟩ c now).1 =
    (detectChanges ⟨bl, ⟨⟨e, dd2, ov2, f, z, vp⟩, mn⟩⟩ c now).1 := by
  cases bl <;> rfl

theorem minorOf_of_major_ne (th : Thresholds) (b c : MetricsVector)
    (hM : majorOf th b c ≠ []) : minorOf th b c = [] := by
  rw [minorOf, if_neg hM]

theorem detectChanges_fst (th : Thresholds) (b c : MetricsVector)
    (now : Nat) :
    detectChanges ⟨some b, th⟩ c now =
      (classifyCore th b c now, ⟨some c, th⟩) := rfl

theorem levelOf_spec (th : Thresholds) (b c : MetricsVector) :
    (levelOf th b c = "major" ↔ majorOf th b c ≠ []) ∧
    (levelOf th b c = "minor" ↔ majorOf th b c = [] ∧ minorOf th b c ≠ []) ∧
    (levelOf th b c = "none" ↔ majorOf th b c = [] ∧ minorOf th b c = []) := by
  rw [levelOf]
  rcases eq_or_ne (majorOf th b c) [] with hM | hM
  · rcases eq_or_ne (minorOf th b c) [] with hm | hm
    · simp [hM, hm]
    · simp [hM, hm, List.length_pos.mpr hm]
  · have := List.length_pos.mpr hM
    have h2 := minorOf_of_major_ne th b c hM
    simp [hM, h2, this]

/-- C1: with an existing baseline, a non-empty major-reason list forces an
empty minor-reason list; the level is major, minor or none exactly as the
claim orders it; and the combined reasons list is the major reasons followed
by the minor reasons. -/
theorem classify_major_preempts_minor (st : DetectorState) (c : MetricsVector)
    (now : Nat) (b : MetricsVector) (h : st.baseline = some b) :
    ((detectChanges st c now).1.majorReasons ≠ [] →
        (detectChanges st c now).1.minorReasons = []) ∧
    ((detectChanges st c now).1.level = "major" ↔
        (detectChanges st c now).1.majorReasons ≠ []) ∧
    ((detectChanges st c now).1.level = "minor" ↔
        (detectChanges st c now).1.majorReasons = [] ∧
        (detectChanges st c now).1.minorReasons ≠ []) ∧
    ((detectChanges st c now).1.level = "none" ↔
        (detectChanges st c now).1.majorReasons = [] ∧
        (detectChanges st c now).1.minorReasons = []) ∧
    (detectChanges st c now).1.reasons =
      (detectChanges st c now).1.majorReasons ++
        (detectChanges st c now).1.minorReasons := by
  obtain ⟨bl, th⟩ := st
  obtain rfl : bl = some b := h
  have hs := levelOf_spec th b c
  simp only [detectChanges_fst, classifyCore]
  exact ⟨minorOf_of_major_ne th b c, hs.1, hs.2.1, hs.2.2, trivial⟩

/-- Witness for C1 at a concrete state and vector. -/
theorem classify_major_preempts_minor_witness :
    ((detectChanges ⟨some sampleVector, defaultThresholds⟩ sampleDialogVector 9).1.majorReasons ≠ [] →
        (detectChanges ⟨some sampleVector, defaultThresholds⟩ sampleDialogVector 9).1.minorReasons = []) ∧
    ((detectChanges ⟨some sampleVector, defaultThresholds⟩ sampleDialogVector 9).1.level = "major" ↔
        (detectChanges ⟨some sampleVector, defaultThresholds⟩ sampleDialogVector 9).1.majorReasons ≠ []) ∧
    ((detectChanges ⟨some sampleVector, defaultThresholds⟩ sampleDialogVector 9).1.level = "minor" ↔
        (detectChanges ⟨some sampleVector, defaultThresholds⟩ sampleDialogVector 9).1.majorReasons = [] ∧
        (detectChanges ⟨some sampleVector, defaultThresholds⟩ sampleDialogVector 9).1.minorReasons ≠ []) ∧
    ((detectChanges ⟨some sampleVector, defaultThresholds⟩ sampleDialogVector 9).1.level = "none" ↔
        (detectChanges ⟨some sampleVector, defaultThresholds⟩ sampleDialogVector 9).1.majorReasons = [] ∧
        (detectChanges ⟨some sampleVector, defaultThresholds⟩ sampleDialogVector 9).1.minorReasons = []) ∧
    (detectChanges ⟨some sampleVector, defaultThresholds⟩ sampleDialogVector 9).1.reasons =
      (detectChanges ⟨some sampleVector, defaultThresholds⟩ sampleDialogVector 9).1.majorReasons ++
        (detectChanges ⟨some sampleVector, defaultThresholds⟩ sampleDialogVector 9).1.minorReasons :=
  classify_major_preempts_minor ⟨some sampleVector, defaultThresholds⟩
    sampleDialogVector 9 sampleVector rfl

/-- C5: updateThresholds is a shallow per-field merge — a field present in
the patch overwrites the stored field (any rational, negatives included), an
absent field keeps the stored value, an absent tier keeps that whole tier —
the baseline is untouched and the full resulting configuration is both
returned and stored. -/
theorem updateThresholds_merge (st : DetectorState) (p : ThresholdsPatch) :
    (updateThresholds st p).1.success = true ∧
    (updateThresholds st p).1.thresholds = (updateThresholds st p).2.thresholds ∧
    (updateThresholds st p).2.baseline = st.baseline ∧
    (p.major = none →
      (updateThresholds st p).1.thresholds.major = st.thresholds.major) ∧
    (p.minor = none →
      (updateThresholds st p).1.thresholds.minor = st.thresholds.minor) ∧
    (∀ m, p.major = some m →
      (∀ q, m.elementDelta = some q →
        (updateThresholds st p).1.thresholds.major.elementDelta = q) ∧
      (m.elementDelta = none →
        (updateThresholds st p).1.thresholds.major.elementDelta =
          st.thresholds.major.elementDelta) ∧
      (∀ q, m.dialogDelta = some q →
        (updateThresholds st p).1.thresholds.major.dialogDelta = q) ∧
      (m.dialogDelta = none →
        (updateThresholds st p).1.thresholds.major.dialogDelta =
          st.thresholds.major.dialogDelta) ∧
      (∀ q, m.overlayDelta = some q →
        (updateThresholds st p).1.thresholds.major.overlayDelta = q) ∧
      (m.overlayDelta = none →
        (updateThresholds st p).1.thresholds.major.overlayDelta =
          st.thresholds.major.overlayDelta) ∧
      (∀ q, m.formDelta = some q →
        (updateThresholds st p).1.thresholds.major.formDelta = q) ∧
      (m.formDelta = none →
        (updateThresholds st p).1.thresholds.major.formDelta =
          st.thresholds.major.formDelta) ∧
      (∀ q, m.zIndexDelta = some q →
        (updateThresholds st p).1.thresholds.major.zIndexDelta = q) ∧
      (m.zIndexDelta = none →
        (updateThresholds st p).1.thresholds.major.zIndexDelta =
          st.thresholds.major.zIndexDelta) ∧
      (∀ q, m.viewportDelta = some q →
        (updateThresholds st p).1.thresholds.major.viewportDelta = q) ∧
      (m.viewportDelta = none →
        (updateThresholds st p).1.thresholds.major.viewportDelta =
          st.thresholds.major.viewportDelta)) ∧
    (∀ m, p.minor = some m →
      (∀ q, m.elementDelta = some q →
        (updateThresholds st p).1.thresholds.minor.elementDelta = q) ∧
      (m.elementDelta = none →
        (updateThresholds st p).1.thresholds.minor.elementDelta =
          st.thresholds.minor.elementDelta) ∧
      (∀ q, m.viewportDelta = some q →
        (updateThresholds st p).1.thresholds.minor.viewportDelta = q) ∧
      (m.viewportDelta = none →
        (updateThresholds st p).1.thresholds.minor.viewportDelta =
          st.thresholds.minor.viewportDelta)) := by
  obtain ⟨bl, mj, mn⟩ := st
  obtain ⟨pmj, pmn⟩ := p
  refine ⟨rfl, rfl, rfl, ?_, ?_, ?_, ?_⟩
  · rintro rfl; rfl
  · rintro rfl; rfl
  · rintro m rfl
    refine ⟨fun q hq => ?_, fun hq => ?_, fun q hq => ?_, fun hq => ?_,
            fun q hq => ?_, fun hq => ?_, fun q hq => ?_, fun hq => ?_,
            fun q hq => ?_, fun hq => ?_, fun q hq => ?_, fun hq => ?_⟩ <;>
      simp [updateThresholds, mergeMajor, hq]
  · rintro m rfl
    refine ⟨fun q hq => ?_, fun hq => ?_, fun q hq => ?_, fun hq => ?_⟩ <;>
      simp [updateThresholds, mergeMinor, hq]

/-- A patch touching only major.elementDelta, with a negative value. -/
def samplePatch : ThresholdsPatch :=
  { major := some { elementDelta := some (-5), dialogDelta := none,
                    overlayDelta := none, formDelta := none,
                    zIndexDelta := none, viewportDelta := none },
    minor := none }

/-- Witness for C5: patching only major.elementDelta (to a negative value,
accepted as-is) leaves major.dialogDelta and the whole minor tier untouched. -/
theorem updateThresholds_merge_witness :
    (updateThresholds initialState samplePatch).1.thresholds.major.elementDelta = -5 ∧
    (updateThresholds initialState samplePatch).1.thresholds.major.dialogDelta =
      initialState.thresholds.major.dialogDelta ∧
    (updateThresholds initialState samplePatch).1.thresholds.minor =
      initialState.thresholds.minor :=
  ⟨((updateThresholds_merge initialState samplePatch).2.2.2.2.2.1
      (samplePatch.major.get rfl) rfl).1 (-5) rfl,
   ((updateThresholds_merge initialState samplePatch).2.2.2.2.2.1
      (samplePatch.major.get rfl) rfl).2.2.2.1 rfl,
   (updateThresholds_merge initialState samplePatch).2.2.2.2.1 rfl⟩

theorem orOne_ne_zero (q : ℚ) : orOne q ≠ 0 := by
  rw [orOne]
  split
  · norm_num
  · assumption

/-- C7: the three percentage deltas divide by `orOne` of the baseline value,
which is never zero (a zero baseline is replaced by 1, a non-zero baseline is
kept), so each percentage times its denominator recovers delta·100 — classify
performs no division by zero. -/
theorem classify_division_safe :
    (∀ q : ℚ, orOne q ≠ 0) ∧
    orOne 0 = 1 ∧
    (∀ q : ℚ, q ≠ 0 → orOne q = q) ∧
    (∀ (b : MetricsVector) (d : Delta),
      (computePercentChange b d).elements * orOne ((b.elements : ℚ)) =
        (d.elements : ℚ) * 100 ∧
      (computePercentChange b d).viewport * orOne b.viewportHeight =
        d.viewportHeight * 100 ∧
      (computePercentChange b d).visible * orOne ((b.visibleElements : ℚ)) =
        (d.visibleElements : ℚ) * 100) := by
  refine ⟨orOne_ne_zero, by simp [orOne], fun q hq => by rw [orOne, if_neg hq],
          fun b d => ⟨?_, ?_, ?_⟩⟩
  · have h := orOne_ne_zero ((b.elements : ℚ))
    simp only [computePercentChange]
    field_simp
  · have h := orOne_ne_zero b.viewportHeight
    simp only [computePercentChange]
    field_simp
  · have h := orOne_ne_zero ((b.visibleElements : ℚ))
    simp only [computePercentChange]
    field_simp

/-- Witness for C7 at concrete values. -/
theorem classify_division_safe_witness :
    orOne (5 : ℚ) = 5 ∧
    orOne ((sampleVector.elements : ℚ)) ≠ 0 ∧
    (computePercentChange sampleVector
        (computeDelta sampleVector sampleDialogVector)).elements *
      orOne ((sampleVector.elements : ℚ)) =
      (((computeDelta sampleVector sampleDialogVector).elements : ℚ)) * 100 :=
  ⟨classify_division_safe.2.2.1 5 (by norm_num),
   classify_division_safe.1 _,
   (classify_division_safe.2.2.2 sampleVector
      (computeDelta sampleVector sampleDialogVector)).1⟩

/-- The all-zero delta produced by comparing a vector with itself. -/
def zeroDelta : Delta :=
  { elements := 0, dialogs := 0, overlays := 0, forms := 0, inputs := 0,
    buttons := 0, links := 0, viewportHeight := 0, visibleElements := 0,
    zIndex := 0, urlChanged := false, fixedElements := 0,
    absoluteElements := 0 }

/-- The all-zero percent-change record. -/
def zeroPercent : PercentChange := { elements := 0, viewport := 0, visible := 0 }

theorem computeDelta_self (v : MetricsVector) : computeDelta v v = zeroDelta := by
  simp [computeDelta, zeroDelta, intAbs, ratAbs]

theorem computePercentChange_zeroDelta (b : MetricsVector) :
    computePercentChange b zeroDelta = zeroPercent := by
  simp [computePercentChange, zeroDelta, zeroPercent]

theorem majorReasonsOf_zero (th : MajorThresholds)
    (hf : 0 < th.formDelta) (he : 0 < th.elementDelta)
    (hz : 0 < th.zIndexDelta) (hv : 0 < th.viewportDelta) :
    majorReasonsOf th zeroDelta zeroPercent = [] := by
  simp [majorReasonsOf, zeroDelta, zeroPercent,
        not_le.mpr hf, not_le.mpr he, not_le.mpr hz, not_le.mpr hv]

theorem minorReasonsOf_zero (th : MinorThresholds)
    (he : 0 < th.elementDelta) (hv : 0 < th.viewportDelta) :
    minorReasonsOf th zeroDelta zeroPercent = [] := by
  simp [minorReasonsOf, zeroDelta, zeroPercent, not_le.mpr he, not_le.mpr hv]

/-- C4: with every configured threshold strictly positive, classifying the
same vector twice in a row yields level none on the second call: the
self-delta is all zero with the URL flag false, and no zero delta crosses a
strictly positive threshold or a strict greater-than-zero trigger. -/
theorem classify_identical_consecutive (st : DetectorState) (v : MetricsVector)
    (now now' : Nat)
    (h1 : 0 < st.thresholds.major.elementDelta)
    (h2 : 0 < st.thresholds.major.dialogDelta)
    (h3 : 0 < st.thresholds.major.overlayDelta)
    (h4 : 0 < st.thresholds.major.formDelta)
    (h5 : 0 < st.thresholds.major.zIndexDelta)
    (h6 : 0 < st.thresholds.major.viewportDelta)
    (h7 : 0 < st.thresholds.minor.elementDelta)
    (h8 : 0 < st.thresholds.minor.viewportDelta) :
    (detectChanges ((detectChanges st v now).2) v now').1.level = "none" ∧
    (detectChanges ((detectChanges st v now).2) v now').1.changed = false ∧
    computeDelta v v = zeroDelta := by
  obtain ⟨bl, th⟩ := st
  have hsnd : (detectChanges ⟨bl, th⟩ v now).2 = ⟨some v, th⟩ := by
    cases bl <;> rfl
  rw [hsnd]
  simp only [detectChanges_fst, classifyCore]
  have hM : majorOf th v v = [] := by
    rw [majorOf, computeDelta_self, computePercentChange_zeroDelta]
    exact majorReasonsOf_zero th.major h4 h1 h5 h6
  have hm : minorOf th v v = [] := by
    rw [minorOf, if_pos hM, computeDelta_self, computePercentChange_zeroDelta]
    exact minorReasonsOf_zero th.minor h7 h8
  have hL : levelOf th v v = "none" := (levelOf_spec th v v).2.2.mpr ⟨hM, hm⟩
  refine ⟨hL, ?_, computeDelta_self v⟩
  rw [hL]
  decide

/-- Witness for C4 at the default (all-positive) thresholds. -/
theorem classify_identical_consecutive_witness :
    (detectChanges ((detectChanges initialState sampleVector 3).2)
        sampleVector 4).1.level = "none" ∧
    (detectChanges ((detectChanges initialState sampleVector 3).2)
        sampleVector 4).1.changed = false ∧
    computeDelta sampleVector sampleVector = zeroDelta :=
  classify_identical_consecutive initialState sampleVector 3 4
    (by norm_num [initialState, mkEngine, defaultThresholds])
    (by norm_num [initialState, mkEngine, defaultThresholds])
    (by norm_num [initialState, mkEngine, defaultThresholds])
    (by norm_num [initialState, mkEngine, defaultThresholds])
    (by norm_num [initialState, mkEngine, defaultThresholds])
    (by norm_num [initialState, mkEngine, defaultThresholds])
    (by norm_num [initialState, mkEngine, defaultThresholds])
    (by norm_num [initialState, mkEngine, defaultThresholds])

/-- C8: the suggested filename is `major_change_` plus the slug of the first
major reason plus timestamp for level major, the fixed `minor_change_` prefix
plus timestamp for level minor, and the fixed sentinel for level none; the
first major reason follows the fixed evaluation order, URL change first, then
dialogs. -/
theorem classify_filename (st : DetectorState) (c : MetricsVector) (now : Nat)
    (b : MetricsVector) (h : st.baseline = some b) :
    ((detectChanges st c now).1.level = "major" →
      ∃ first rest, (detectChanges st c now).1.majorReasons = first :: rest ∧
        (detectChanges st c now).1.suggestedFilename =
          "major_change_" ++ slug first ++ "_" ++ toString now ++ ".png") ∧
    ((detectChanges st c now).1.level = "minor" →
      (detectChanges st c now).1.suggestedFilename =
        "minor_change_" ++ toString now ++ ".png") ∧
    ((detectChanges st c now).1.level = "none" →
      (detectChanges st c now).1.suggestedFilename = "no_change.png") ∧
    ((computeDelta b c).urlChanged = true →
      (detectChanges st c now).1.majorReasons.head? = some "URL changed") ∧
    ((computeDelta b c).urlChanged = false → 0 < (computeDelta b c).dialogs →
      (detectChanges st c now).1.majorReasons.head? =
        some (toString (computeDelta b c).dialogs ++ " dialog(s) appeared")) := by
  obtain ⟨bl, th⟩ := st
  obtain rfl : bl = some b := h
  simp only [detectChanges_fst, classifyCore]
  refine ⟨?_, ?_, ?_, ?_, ?_⟩
  · intro hL
    have hM : majorOf th b c ≠ [] := (levelOf_spec th b c).1.mp hL
    rcases hML : majorOf th b c with _ | ⟨first, rest⟩
    · exact absurd hML hM
    · refine ⟨first, rest, rfl, ?_⟩
      rw [filenameOf, if_pos hL, hML]
      rfl
  · intro hL
    have hn : ¬ levelOf th b c = "major" := by rw [hL]; decide
    rw [filenameOf, if_neg hn, if_pos hL]
  · intro hL
    have hn1 : ¬ levelOf th b c = "major" := by rw [hL]; decide
    have hn2 : ¬ levelOf th b c = "minor" := by rw [hL]; decide
    rw [filenameOf, if_neg hn1, if_neg hn2]
  · intro hu
    rw [majorOf, majorReasonsOf]
    simp [hu]
  · intro hu hd
    rw [majorOf, majorReasonsOf]
    simp [hu, hd]

/-- Witness for C8 at a concrete state and vector. -/
theorem classify_filename_witness :
    ((detectChanges ⟨some sampleVector, defaultThresholds⟩ sampleDialogVector 9).1.level = "major" →
      ∃ first rest,
        (detectChanges ⟨some sampleVector, defaultThresholds⟩ sampleDialogVector 9).1.majorReasons =
          first :: rest ∧
        (detectChanges ⟨some sampleVector, defaultThresholds⟩ sampleDialogVector 9).1.suggestedFilename =
          "major_change_" ++ slug first ++ "_" ++ toString 9 ++ ".png") ∧
    ((detectChanges ⟨some sampleVector, defaultThresholds⟩ sampleDialogVector 9).1.level = "minor" →
      (detectChanges ⟨some sampleVector, defaultThresholds⟩ sampleDialogVector 9).1.suggestedFilename =
        "minor_change_" ++ toString 9 ++ ".png") ∧
    ((detectChanges ⟨some sampleVector, defaultThresholds⟩ sampleDialogVector 9).1.level = "none" →
      (detectChanges ⟨some sampleVector, defaultThresholds⟩ sampleDialogVector 9).1.suggestedFilename =
        "no_change.png") ∧
    ((computeDelta sampleVector sampleDialogVector).urlChanged = true →
      (detectChanges ⟨some sampleVector, defaultThresholds⟩ sampleDialogVector 9).1.majorReasons.head? =
        some "URL changed") ∧
    ((computeDelta sampleVector sampleDialogVector).urlChanged = false →
      0 < (computeDelta sampleVector sampleDialogVector).dialogs →
      (detectChanges ⟨some sampleVector, defaultThresholds⟩ sampleDialogVector 9).1.majorReasons.head? =
        some (toString (computeDelta sampleVector sampleDialogVector).dialogs ++
          " dialog(s) appeared")) :=
  classify_filename ⟨some sampleVector, defaultThresholds⟩ sampleDialogVector 9
    sampleVector rfl

/-- C9: with an existing baseline, shouldTakeScreenshot is exactly level not
none and coincides with the changed flag; shouldTakeSnapshot is true iff some
major reason's text contains, as a substring, a dialog, overlay, URL-change
or form-count-change signal; and a dialog count going from zero to one forces
level major with shouldTakeSnapshot true via a dialog-appearance reason. -/
theorem classify_recommendations (st : DetectorState) (c : MetricsVector)
    (now : Nat) (b : MetricsVector) (h : st.baseline = some b) :
    (detectChanges st c now).1.shouldTakeScreenshot =
      ((detectChanges st c now).1.level != "none") ∧
    (detectChanges st c now).1.shouldTakeScreenshot =
      (detectChanges st c now).1.changed ∧
    ((detectChanges st c now).1.shouldTakeSnapshot = true ↔
      ∃ s ∈ (detectChanges st c now).1.majorReasons,
        (strIncludes s "dialog" || strIncludes s "overlay" ||
         strIncludes s "URL changed" ||
         strIncludes s "Form count changed") = true) ∧
    (b.dialogs = 0 → c.dialogs = 1 →
      (detectChanges st c now).1.level = "major" ∧
      (detectChanges st c now).1.shouldTakeSnapshot = true ∧
      "1 dialog(s) appeared" ∈ (detectChanges st c now).1.majorReasons) := by
  obtain ⟨bl, th⟩ := st
  obtain rfl : bl = some b := h
  simp only [detectChanges_fst, classifyCore]
  refine ⟨trivial, trivial, ?_, ?_⟩
  · rw [List.any_eq_true]
    simp only [snapshotSignal]
  · intro hb hc
    have hd : (computeDelta b c).dialogs = 1 := by
      simp [computeDelta, hb, hc]
    have hmem : "1 dialog(s) appeared" ∈ majorOf th b c := by
      rw [majorOf, majorReasonsOf]
      rw [hd]
      simp [show ((0:Int) < 1) from by decide,
            show toString (1:Int) = "1" from by decide,
            show ("1" ++ " dialog(s) appeared") = "1 dialog(s) appeared" from by decide]
    refine ⟨(levelOf_spec th b c).1.mpr (List.ne_nil_of_mem hmem), ?_, hmem⟩
    exact List.any_eq_true.mpr ⟨_, hmem, by decide⟩

/-- Witness for C9 at a concrete state and vector. -/
theorem classify_recommendations_witness :
    (detectChanges ⟨some sampleVector, defaultThresholds⟩ sampleDialogVector 9).1.shouldTakeScreenshot =
      ((detectChanges ⟨some sampleVector, defaultThresholds⟩ sampleDialogVector 9).1.level != "none") ∧
    (detectChanges ⟨some sampleVector, defaultThresholds⟩ sampleDialogVector 9).1.shouldTakeScreenshot =
      (detectChanges ⟨some sampleVector, defaultThresholds⟩ sampleDialogVector 9).1.changed ∧
    ((detectChanges ⟨some sampleVector, defaultThresholds⟩ sampleDialogVector 9).1.shouldTakeSnapshot = true ↔
      ∃ s ∈ (detectChanges ⟨some sampleVector, defaultThresholds⟩ sampleDialogVector 9).1.majorReasons,
        (strIncludes s "dialog" || strIncludes s "overlay" ||
         strIncludes s "URL changed" ||
         strIncludes s "Form count changed") = true) ∧
    (sampleVector.dialogs = 0 → sampleDialogVector.dialogs = 1 →
      (detectChanges ⟨some sampleVector, defaultThresholds⟩ sampleDialogVector 9).1.level = "major" ∧
      (detectChanges ⟨some sampleVector, defaultThresholds⟩ sampleDialogVector 9).1.shouldTakeSnapshot = true ∧
      "1 dialog(s) appeared" ∈
        (detectChanges ⟨some sampleVector, defaultThresholds⟩ sampleDialogVector 9).1.majorReasons) :=
  classify_recommendations ⟨some sampleVector, defaultThresholds⟩
    sampleDialogVector 9 sampleVector rfl

end ChangeDetector
